import Mathlib

/-!
Verification of the query and class behavior of src/SOLID.ts.

The file embeds the TypeScript classes shallowly: each class becomes a
structure, each method a Lean function on that structure, and TypeScript
number fields holding years become Int. Methods that write to the console
or throw are modelled with explicit result values: console output becomes
the returned String, a thrown Error becomes the error branch of an Except.
-/

/-- A video game record, from class VideoGame: a name and a numeric
release date, both set at construction and never mutated. -/
structure VideoGame where
  name : String
  releaseDate : Int
deriving DecidableEq, Repr

/-- The store of class VideoGameStore: holds the list of video games
passed to its constructor. -/
structure VideoGameStore where
  videoGames : List VideoGame
deriving DecidableEq, Repr

/-- Method getAllGamesByAge: filter on releaseDate equal to the argument. -/
def VideoGameStore.getAllGamesByAge (s : VideoGameStore) (age : Int) : List VideoGame :=
  s.videoGames.filter (fun v => v.releaseDate == age)

/-- Method getAllGamesByName: filter on name equal to the argument. -/
def VideoGameStore.getAllGamesByName (s : VideoGameStore) (name : String) : List VideoGame :=
  s.videoGames.filter (fun v => v.name == name)

/-- Method getAllGamesOlderThanAge: filter on releaseDate strictly below
the argument. -/
def VideoGameStore.getAllGamesOlderThanAge (s : VideoGameStore) (age : Int) : List VideoGame :=
  s.videoGames.filter (fun v => decide (v.releaseDate < age))

/-- Method getAllGamesNewerThanAge: filter on releaseDate strictly above
the argument. -/
def VideoGameStore.getAllGamesNewerThanAge (s : VideoGameStore) (age : Int) : List VideoGame :=
  s.videoGames.filter (fun v => decide (age < v.releaseDate))

/-- The store of class BetterVideoGameStore: it extends
VideoGameStoreGetter and keeps the constructor argument in a field. -/
structure BetterVideoGameStore where
  videoGames : List VideoGame
deriving DecidableEq, Repr

/-- Method getAllGamesByAge of VideoGameStoreGetter, as inherited by
BetterVideoGameStore: the body reads only the collection argument, never
a field of the receiver. -/
def BetterVideoGameStore.getAllGamesByAge (self : BetterVideoGameStore)
    (collection : List VideoGame) (age : Int) : List VideoGame :=
  collection.filter (fun v => v.releaseDate == age)

/-- Method getAllGamesByName of VideoGameStoreGetter, as inherited by
BetterVideoGameStore. -/
def BetterVideoGameStore.getAllGamesByName (self : BetterVideoGameStore)
    (collection : List VideoGame) (name : String) : List VideoGame :=
  collection.filter (fun v => v.name == name)

/-- Method getAllGamesOlderThanAge of VideoGameStoreGetter, as inherited
by BetterVideoGameStore. -/
def BetterVideoGameStore.getAllGamesOlderThanAge (self : BetterVideoGameStore)
    (collection : List VideoGame) (age : Int) : List VideoGame :=
  collection.filter (fun v => decide (v.releaseDate < age))

/-- Method getAllGamesNewerThanAge of VideoGameStoreGetter, as inherited
by BetterVideoGameStore. -/
def BetterVideoGameStore.getAllGamesNewerThanAge (self : BetterVideoGameStore)
    (collection : List VideoGame) (age : Int) : List VideoGame :=
  collection.filter (fun v => decide (age < v.releaseDate))

/-- One query call on a VideoGameStore, with its argument. -/
inductive Query where
  | byAge (age : Int)
  | byName (name : String)
  | olderThan (age : Int)
  | newerThan (age : Int)
deriving DecidableEq, Repr

/-- Run one query on a store. A call returns the filtered list together
with the store it leaves behind; Array.prototype.filter builds a fresh
array and leaves its receiver untouched, so the store comes back as is. -/
def runQuery (s : VideoGameStore) : Query → List VideoGame × VideoGameStore
  | Query.byAge a => (s.getAllGamesByAge a, s)
  | Query.byName n => (s.getAllGamesByName n, s)
  | Query.olderThan a => (s.getAllGamesOlderThanAge a, s)
  | Query.newerThan a => (s.getAllGamesNewerThanAge a, s)

/-- Run a sequence of queries, threading the store through each call and
collecting the results in order. -/
def runQueries (s : VideoGameStore) : List Query → List (List VideoGame) × VideoGameStore
  | [] => ([], s)
  | q :: qs =>
    let r := runQuery s q
    let rest := runQueries r.2 qs
    (r.1 :: rest.1, rest.2)

/-- The example collection of the specification:
Chrono Trigger 1995, Doom 1993, Doom II 1994. -/
def exampleCollection : List VideoGame :=
  [⟨"Chrono Trigger", 1995⟩, ⟨"Doom", 1993⟩, ⟨"Doom II", 1994⟩]

/-- A living being, from class LivingBeing: a name and an age. -/
structure LivingBeing where
  name : String
  age : Int
deriving DecidableEq, Repr

/-- Method breathe of LivingBeing: writes the breathing line to the
console and returns normally. The console line is the ok value; a thrown
Error would be the error value. -/
def LivingBeing.breathe (b : LivingBeing) : Except String String :=
  Except.ok "I'm breathing"

/-- A human, from class Human extends LivingBeing: adds a job. -/
structure Human where
  toLivingBeing : LivingBeing
  job : String
deriving DecidableEq, Repr

/-- Constructor of Human. -/
def Human.make (name : String) (age : Int) (job : String) : Human :=
  ⟨⟨name, age⟩, job⟩

/-- Method breathe as inherited unchanged by Human from LivingBeing. -/
def Human.breathe (h : Human) : Except String String :=
  h.toLivingBeing.breathe

/-- A plant, from class Plant extends LivingBeing: adds a color. -/
structure Plant where
  toLivingBeing : LivingBeing
  color : String
deriving DecidableEq, Repr

/-- Constructor of Plant. -/
def Plant.make (name : String) (age : Int) (color : String) : Plant :=
  ⟨⟨name, age⟩, color⟩

/-- Method breathe as overridden by Plant: it throws an Error whose
message says it does not breathe. -/
def Plant.breathe (p : Plant) : Except String String :=
  Except.error "I don't breathe"

/-- The student hierarchy of the dependency-inversion example: class
Student and its subclass CorrectJavascriptStudent, which overrides learn.
A value records which dynamic class a constructed student has. -/
inductive Student where
  | defaultStudent
  | correctJavascriptStudent
deriving DecidableEq, Repr

/-- Method learn, dispatched on the dynamic class: the base Student
prints the plain learning line, CorrectJavascriptStudent overrides it
with the Javascript line. The console line is the returned value. -/
def Student.learn : Student → String
  | Student.defaultStudent => "I'm learning"
  | Student.correctJavascriptStudent => "I'm learning Javascript"

/-- The state of class CorrectGentleman: a name and the student field. -/
structure CorrectGentleman where
  name : String
  student : Student
deriving DecidableEq, Repr

/-- Constructor of CorrectGentleman: it receives a student argument but
assigns a newly constructed base Student to the field. -/
def CorrectGentleman.make (name : String) (student : Student) : CorrectGentleman :=
  { name := name, student := Student.defaultStudent }

/-- Method teach of CorrectGentleman: calls learn on the stored student. -/
def CorrectGentleman.teach (g : CorrectGentleman) : String :=
  g.student.learn

/-- C3: the CorrectGentleman constructor discards the injected student
and stores a fresh base Student, so teach always produces the base learn
behavior; in particular the script at the bottom of the file, which
injects a CorrectJavascriptStudent, still gets the plain learning line. -/
theorem correctGentleman_ignores_injected_student (n : String) (s : Student) :
    (CorrectGentleman.make n s).student = Student.defaultStudent ∧
    (CorrectGentleman.make n s).teach = "I'm learning" ∧
    (CorrectGentleman.make "Alan" Student.correctJavascriptStudent).teach = "I'm learning" :=
  ⟨rfl, rfl, rfl⟩

/-- C10: breathe on any Plant throws the Error with the given message and
never returns normally, while breathe on any LivingBeing and the breathe
Human inherits unchanged both return normally for every instance. -/
theorem plant_breathe_throws (n : String) (a : Int) (c : String)
    (b : LivingBeing) (h : Human) :
    (Plant.make n a c).breathe = Except.error "I don't breathe" ∧
    (∀ p : Plant, p.breathe.isOk = false) ∧
    b.breathe = Except.ok "I'm breathing" ∧
    h.breathe = Except.ok "I'm breathing" :=
  ⟨rfl, fun _ => rfl, rfl, rfl⟩

/-- Helper: an element the filter predicate rejects has count zero in the
filtered list. -/
theorem count_filter_of_neg {p : VideoGame → Bool} {l : List VideoGame}
    {a : VideoGame} (h : p a = false) : (l.filter p).count a = 0 := by
  rw [List.count_eq_zero]
  intro hmem
  have hp := List.of_mem_filter hmem
  rw [h] at hp
  exact Bool.false_ne_true hp

/-- Helper: one query leaves the store component unchanged. -/
theorem runQuery_snd (s : VideoGameStore) (q : Query) : (runQuery s q).2 = s := by
  cases q <;> rfl

/-- Helper: the result of one query is a sublist of the stored games. -/
theorem runQuery_fst_sublist (s : VideoGameStore) (q : Query) :
    (runQuery s q).1.Sublist s.videoGames := by
  cases q <;> exact List.filter_sublist _

/-- C1: getAllGamesByAge returns exactly the stored records whose
releaseDate equals the target: every returned record has that
releaseDate, every matching record keeps its multiplicity, and the result
is a sublist of the collection, hence in original relative order. -/
theorem findByMetric_correct (C : List VideoGame) (m : Int) :
    (∀ v ∈ (VideoGameStore.mk C).getAllGamesByAge m, v.releaseDate = m) ∧
    (∀ v : VideoGame, v.releaseDate = m →
      ((VideoGameStore.mk C).getAllGamesByAge m).count v = C.count v) ∧
    ((VideoGameStore.mk C).getAllGamesByAge m).Sublist C := by
  refine ⟨?_, ?_, List.filter_sublist _⟩
  · intro v hv
    have hp := List.of_mem_filter hv
    simpa using hp
  · intro v hv
    exact List.count_filter (by simpa using hv)

/-- Witness for C1 at the example collection and metric 1994. -/
theorem findByMetric_correct_witness :
    (VideoGame.mk "Doom II" 1994).releaseDate = 1994 ∧
    ((VideoGameStore.mk exampleCollection).getAllGamesByAge 1994).count
        (VideoGame.mk "Doom II" 1994) =
      exampleCollection.count (VideoGame.mk "Doom II" 1994) :=
  ⟨rfl, (findByMetric_correct exampleCollection 1994).2.1 _ rfl⟩


/-- C2: for a record of the collection, the three buckets older-than,
equal-to and newer-than a threshold are exhaustive and pairwise
exclusive, and the three counts add up to the count in the collection. -/
theorem queries_partition_collection (C : List VideoGame) (t : Int)
    (v : VideoGame) (hv : v ∈ C) :
    ((v ∈ (VideoGameStore.mk C).getAllGamesOlderThanAge t ∧
        v ∉ (VideoGameStore.mk C).getAllGamesByAge t ∧
        v ∉ (VideoGameStore.mk C).getAllGamesNewerThanAge t) ∨
      (v ∉ (VideoGameStore.mk C).getAllGamesOlderThanAge t ∧
        v ∈ (VideoGameStore.mk C).getAllGamesByAge t ∧
        v ∉ (VideoGameStore.mk C).getAllGamesNewerThanAge t) ∨
      (v ∉ (VideoGameStore.mk C).getAllGamesOlderThanAge t ∧
        v ∉ (VideoGameStore.mk C).getAllGamesByAge t ∧
        v ∈ (VideoGameStore.mk C).getAllGamesNewerThanAge t)) ∧
    ((VideoGameStore.mk C).getAllGamesOlderThanAge t).count v +
      ((VideoGameStore.mk C).getAllGamesByAge t).count v +
      ((VideoGameStore.mk C).getAllGamesNewerThanAge t).count v = C.count v := by
  have mo : v ∈ (VideoGameStore.mk C).getAllGamesOlderThanAge t ↔ v.releaseDate < t := by
    simp [VideoGameStore.getAllGamesOlderThanAge, List.mem_filter, hv]
  have me : v ∈ (VideoGameStore.mk C).getAllGamesByAge t ↔ v.releaseDate = t := by
    simp [VideoGameStore.getAllGamesByAge, List.mem_filter, hv]
  have mn : v ∈ (VideoGameStore.mk C).getAllGamesNewerThanAge t ↔ t < v.releaseDate := by
    simp [VideoGameStore.getAllGamesNewerThanAge, List.mem_filter, hv]
  constructor
  · rw [mo, me, mn]
    omega
  · simp only [VideoGameStore.getAllGamesOlderThanAge, VideoGameStore.getAllGamesByAge,
      VideoGameStore.getAllGamesNewerThanAge]
    rcases lt_trichotomy v.releaseDate t with h | h | h
    · rw [List.count_filter (by simpa using h),
        count_filter_of_neg (by simp; omega),
        count_filter_of_neg (by simp; omega)]
      omega
    · rw [count_filter_of_neg (by simp; omega),
        List.count_filter (by simpa using h),
        count_filter_of_neg (by simp; omega)]
      omega
    · rw [count_filter_of_neg (by simp; omega),
        count_filter_of_neg (by simp; omega),
        List.count_filter (by simpa using h)]
      omega

/-- Witness for C2 at the example collection, threshold 1994 and the
record Doom 1993. -/
theorem queries_partition_collection_witness :
    VideoGame.mk "Doom" 1993 ∈ exampleCollection ∧
    ((VideoGameStore.mk exampleCollection).getAllGamesOlderThanAge 1994).count
        (VideoGame.mk "Doom" 1993) +
      ((VideoGameStore.mk exampleCollection).getAllGamesByAge 1994).count
        (VideoGame.mk "Doom" 1993) +
      ((VideoGameStore.mk exampleCollection).getAllGamesNewerThanAge 1994).count
        (VideoGame.mk "Doom" 1993) =
      exampleCollection.count (VideoGame.mk "Doom" 1993) :=
  ⟨by decide,
    (queries_partition_collection exampleCollection 1994
      (VideoGame.mk "Doom" 1993) (by decide)).2⟩

/-- C4: getAllGamesOlderThanAge returns exactly the records with
releaseDate strictly below the threshold, in original order; a record at
the threshold itself is excluded; on the example collection with
threshold 1994 only Doom 1993 comes back. -/
theorem findOlderThan_correct (C : List VideoGame) (t : Int) :
    (∀ v ∈ (VideoGameStore.mk C).getAllGamesOlderThanAge t,
      v.releaseDate < t ∧ v.releaseDate ≠ t) ∧
    (∀ v : VideoGame, v.releaseDate < t →
      ((VideoGameStore.mk C).getAllGamesOlderThanAge t).count v = C.count v) ∧
    ((VideoGameStore.mk C).getAllGamesOlderThanAge t).Sublist C ∧
    (VideoGameStore.mk exampleCollection).getAllGamesOlderThanAge 1994 =
      [VideoGame.mk "Doom" 1993] := by
  refine ⟨?_, ?_, List.filter_sublist _, by decide⟩
  · intro v hv
    have hp := List.of_mem_filter hv
    simp only [decide_eq_true_eq] at hp
    exact ⟨hp, ne_of_lt hp⟩
  · intro v hv
    exact List.count_filter (by simpa using hv)

/-- Witness for C4 at the example collection and threshold 1994. -/
theorem findOlderThan_correct_witness :
    (VideoGame.mk "Doom" 1993).releaseDate < 1994 ∧
    ((VideoGameStore.mk exampleCollection).getAllGamesOlderThanAge 1994).count
        (VideoGame.mk "Doom" 1993) =
      exampleCollection.count (VideoGame.mk "Doom" 1993) :=
  ⟨by decide, (findOlderThan_correct exampleCollection 1994).2.1 _ (by decide)⟩

/-- C5: getAllGamesNewerThanAge returns exactly the records with
releaseDate strictly above the threshold, in original order; a record at
the threshold itself is excluded; on the example collection with
threshold 1993 Chrono Trigger 1995 comes back before Doom II 1994,
keeping insertion order. -/
theorem findNewerThan_correct (C : List VideoGame) (t : Int) :
    (∀ v ∈ (VideoGameStore.mk C).getAllGamesNewerThanAge t,
      t < v.releaseDate ∧ v.releaseDate ≠ t) ∧
    (∀ v : VideoGame, t < v.releaseDate →
      ((VideoGameStore.mk C).getAllGamesNewerThanAge t).count v = C.count v) ∧
    ((VideoGameStore.mk C).getAllGamesNewerThanAge t).Sublist C ∧
    (VideoGameStore.mk exampleCollection).getAllGamesNewerThanAge 1993 =
      [VideoGame.mk "Chrono Trigger" 1995, VideoGame.mk "Doom II" 1994] := by
  refine ⟨?_, ?_, List.filter_sublist _, by decide⟩
  · intro v hv
    have hp := List.of_mem_filter hv
    simp only [decide_eq_true_eq] at hp
    exact ⟨hp, ne_of_gt hp⟩
  · intro v hv
    exact List.count_filter (by simpa using hv)

/-- Witness for C5 at the example collection and threshold 1993. -/
theorem findNewerThan_correct_witness :
    (1993 : Int) < (VideoGame.mk "Chrono Trigger" 1995).releaseDate ∧
    ((VideoGameStore.mk exampleCollection).getAllGamesNewerThanAge 1993).count
        (VideoGame.mk "Chrono Trigger" 1995) =
      exampleCollection.count (VideoGame.mk "Chrono Trigger" 1995) :=
  ⟨by decide, (findNewerThan_correct exampleCollection 1993).2.1 _ (by decide)⟩

/-- C6: getAllGamesByName returns exactly the records whose name equals
the target by exact match, in original order; on the example collection
the target Doom returns only Doom 1993 and not Doom II 1994, whose name
merely starts with the target. -/
theorem findByName_correct (C : List VideoGame) (n : String) :
    (∀ v ∈ (VideoGameStore.mk C).getAllGamesByName n, v.name = n) ∧
    (∀ v : VideoGame, v.name = n →
      ((VideoGameStore.mk C).getAllGamesByName n).count v = C.count v) ∧
    ((VideoGameStore.mk C).getAllGamesByName n).Sublist C ∧
    (VideoGameStore.mk exampleCollection).getAllGamesByName "Doom" =
      [VideoGame.mk "Doom" 1993] := by
  refine ⟨?_, ?_, List.filter_sublist _, by decide⟩
  · intro v hv
    have hp := List.of_mem_filter hv
    simpa using hp
  · intro v hv
    exact List.count_filter (by simpa using hv)

/-- Witness for C6 at the example collection and the name Doom. -/
theorem findByName_correct_witness :
    (VideoGame.mk "Doom" 1993).name = "Doom" ∧
    ((VideoGameStore.mk exampleCollection).getAllGamesByName "Doom").count
        (VideoGame.mk "Doom" 1993) =
      exampleCollection.count (VideoGame.mk "Doom" 1993) :=
  ⟨rfl, (findByName_correct exampleCollection "Doom").2.1 _ rfl⟩

/-- C7: running any sequence of the four queries leaves the stored
collection exactly as it was, every call answers as if run on the
original unmodified collection, and every result is a sublist of the
stored games, so it is a fresh sequence that keeps the insertion order
and the duplicates of the source. -/
theorem queries_never_mutate_store (s : VideoGameStore) (qs : List Query) :
    (runQueries s qs).2 = s ∧
    (runQueries s qs).1 = qs.map (fun q => (runQuery s q).1) ∧
    ∀ res ∈ (runQueries s qs).1, res.Sublist s.videoGames := by
  induction qs with
  | nil =>
    refine ⟨rfl, rfl, ?_⟩
    intro res h
    simp [runQueries] at h
  | cons q qs ih =>
    have hsnd : (runQuery s q).2 = s := runQuery_snd s q
    refine ⟨?_, ?_, ?_⟩
    · show (runQueries (runQuery s q).2 qs).2 = s
      rw [hsnd]
      exact ih.1
    · show (runQuery s q).1 :: (runQueries (runQuery s q).2 qs).1 =
        (runQuery s q).1 :: qs.map (fun r => (runQuery s r).1)
      rw [hsnd, ih.2.1]
    · intro res h
      rcases List.mem_cons.mp h with h1 | h1
      · rw [h1]
        exact runQuery_fst_sublist s q
      · rw [hsnd] at h1
        exact ih.2.2 res h1

/-- Witness for C7 at the example store and a two-query sequence. -/
theorem queries_never_mutate_store_witness :
    (runQueries (VideoGameStore.mk exampleCollection)
        [Query.byAge 1994, Query.byName "Doom"]).2 =
      VideoGameStore.mk exampleCollection ∧
    ((VideoGameStore.mk exampleCollection).getAllGamesByAge 1994).Sublist
      (VideoGameStore.mk exampleCollection).videoGames :=
  ⟨(queries_never_mutate_store (VideoGameStore.mk exampleCollection)
      [Query.byAge 1994, Query.byName "Doom"]).1,
    (queries_never_mutate_store (VideoGameStore.mk exampleCollection)
      [Query.byAge 1994, Query.byName "Doom"]).2.2 _ (by decide)⟩

/-- C8: on the empty collection each of the four queries answers the
empty list, whatever the argument, and on any collection each query is a
total function with a list result, so no call signals an error. -/
theorem empty_store_queries (m : Int) (n : String) (t u : Int) :
    (VideoGameStore.mk []).getAllGamesByAge m = [] ∧
    (VideoGameStore.mk []).getAllGamesByName n = [] ∧
    (VideoGameStore.mk []).getAllGamesOlderThanAge t = [] ∧
    (VideoGameStore.mk []).getAllGamesNewerThanAge u = [] :=
  ⟨rfl, rfl, rfl, rfl⟩

/-- C9: the query methods BetterVideoGameStore inherits read only the
collection passed as the explicit method argument, so two stores built
from different collections answer every query on a given argument
collection identically: construction-time data never reaches a result. -/
theorem betterStore_queries_ignore_stored_games (s1 s2 : BetterVideoGameStore)
    (collection : List VideoGame) (age : Int) (nm : String) :
    s1.getAllGamesByAge collection age = s2.getAllGamesByAge collection age ∧
    s1.getAllGamesByName collection nm = s2.getAllGamesByName collection nm ∧
    s1.getAllGamesOlderThanAge collection age = s2.getAllGamesOlderThanAge collection age ∧
    s1.getAllGamesNewerThanAge collection age = s2.getAllGamesNewerThanAge collection age :=
  ⟨rfl, rfl, rfl, rfl⟩
